import Mathlib

/-!
Shallow embedding of `gui/src/components/loaders/IndexingProgressBar.tsx`
(the indexing progress indicator of the `continue` GUI), together with
proofs about its display state machine, click dispatch, pause-intent
reconciler, and message contract with the host.

Modelling conventions:
* the TypeScript `IndexingProgressUpdate` status union becomes the inductive
  `IndexStatus`; `progress` (a JS number used as a fraction) becomes `ℚ`;
* the local `useState<boolean | undefined>` pause intent becomes `Option Bool`
  (`none` = `undefined`);
* each `ideMessenger.post` call becomes a `HostMessage` value; handlers and
  effects return the list of messages they post, in posting order;
* `isJetBrains()` and the redux `embeddingsProvider` selector become explicit
  parameters (`jetBrains : Bool`, `embeddingsProvider : String`).
-/

/-- Status union of `IndexingProgressUpdate` (from the `core` package, as
described by the component's usage and the spec): `loading | indexing |
paused | done | failed | disabled`. -/
inductive IndexStatus where
  | loading
  | indexing
  | paused
  | done
  | failed
  | disabled
  deriving DecidableEq, Repr

/-- A single progress report pushed by the host. `shouldClearIndexes` is an
optional boolean (`none` = absent). -/
structure IndexingProgressUpdate where
  status : IndexStatus
  progress : ℚ
  desc : String
  shouldClearIndexes : Option Bool := none
  deriving DecidableEq, Repr

/-- Default state substituted when no update has arrived yet
(`defaultIndexingState` in the source). -/
def defaultIndexingState : IndexingProgressUpdate :=
  { status := .loading, progress := 0, desc := "" }

/-- Messages the component posts to the host through `ideMessenger.post`.
For `forceReIndex`, `some b` models the payload `\x7bshouldClearIndexes: b\x7d`
and `none` models a missing (`undefined`) payload. -/
inductive HostMessage where
  | indexingProgressBarInitialized
  | setPaused (value : Bool)
  | forceReIndex (payload : Option Bool)
  deriving DecidableEq, Repr

/-- Boolean recognizer for `setPaused` messages (any payload). -/
def isSetPaused : HostMessage → Bool
  | .setPaused _ => true
  | _ => false

/-- `fillPercentage = Math.min(100, Math.max(0, indexingState.progress * 100))`. -/
def fillPercentage (progress : ℚ) : ℚ :=
  min 100 (max 0 (progress * 100))

/-- JavaScript `Math.trunc`: truncation toward zero. -/
def mathTrunc (q : ℚ) : ℤ :=
  if q < 0 then -⌊-q⌋ else ⌊q⌋

/-- `TransformersJsEmbeddingsProvider.model`, imported by the component from
the `core` package (outside this repository slice); the concrete string value
does not matter to any theorem below, only its identity. -/
def transformersJsModel : String := "all-MiniLM-L6-v2"

/-- Fixed explanatory message returned by `getIndexingErrMsg` in the
JetBrains + transformers.js configuration. -/
def jetBrainsUnsupportedMsg : String :=
  "The \x27transformers.js\x27 embeddingsProvider is currently unsupported in JetBrains. To enable codebase indexing, you can use any of the other providers described in the docs: https://docs.continue.dev/walkthroughs/codebase-embeddings#embeddings-providers"

/-- `getIndexingErrMsg(msg)`: substitutes a capability message when running in
JetBrains with the transformers.js embeddings provider, otherwise returns the
update's description unchanged. -/
def getIndexingErrMsg (jetBrains : Bool) (embeddingsProvider : String)
    (msg : String) : String :=
  if jetBrains = true ∧ embeddingsProvider = transformersJsModel then
    jetBrainsUnsupportedMsg
  else
    msg

/-- Tag for the branch of the render conditional chain that was taken.
`Empty` is the final `: null` fallback of the chain (unreachable for the
closed status type, kept for fidelity to the source). -/
inductive DisplayVariant where
  | Failed
  | Loading
  | Done
  | Disabled
  | Paused
  | Indexing
  | Empty
  deriving DecidableEq, Repr

/-- Observable output of one render of the component: which branch was taken,
the heading / tooltip / info strings, progress-bar fill and percent label, and
the messages posted directly by the branch's own click handlers
(`dotClickMessages` for the `StatusDot` sub-element, `flexClickMessages` for
the branch's `FlexDiv` row element). Styling (colors, blink) is out of scope. -/
structure DisplayState where
  variant : DisplayVariant
  heading : Option String
  tooltip : Option String
  info : Option String
  fill : Option ℚ
  percentLabel : Option String
  dotClickMessages : List HostMessage
  flexClickMessages : List HostMessage
  deriving DecidableEq, Repr

/-- The render conditional chain of the component, in its literal source
order: failed, loading, done, disabled, paused-or-intent, indexing, null.
Inputs: the current update, the local pause intent, the hover flag, and the
two external reads (`embeddingsProvider` selector, `isJetBrains()`). -/
def display (u : IndexingProgressUpdate) (paused : Option Bool)
    (hovered : Bool) (embeddingsProvider : String) (jetBrains : Bool) :
    DisplayState :=
  if u.status = .failed then
    { variant := .Failed
      heading := some "Indexing error - click to retry"
      tooltip := some (getIndexingErrMsg jetBrains embeddingsProvider u.desc)
      info := none
      fill := none
      percentLabel := none
      dotClickMessages := []
      flexClickMessages := [] }
  else if u.status = .loading then
    { variant := .Loading
      heading := some "Initializing"
      tooltip := none
      info := none
      fill := none
      percentLabel := none
      dotClickMessages := []
      flexClickMessages := [] }
  else if u.status = .done then
    { variant := .Done
      heading := some "Index up to date"
      tooltip := some "Index up to date\nClick to force re-indexing"
      info := none
      fill := none
      percentLabel := none
      dotClickMessages := []
      flexClickMessages := [] }
  else if u.status = .disabled then
    { variant := .Disabled
      heading := none
      tooltip := some u.desc
      info := none
      fill := none
      percentLabel := none
      dotClickMessages := []
      flexClickMessages := [] }
  else if u.status = .paused ∨ (paused.getD false = true ∧ u.status = .indexing) then
    { variant := .Paused
      heading := some ("Indexing paused (" ++ toString (mathTrunc (u.progress * 100)) ++ "%)")
      tooltip := none
      info := none
      fill := none
      percentLabel := none
      dotClickMessages := [.setPaused false]
      flexClickMessages := [] }
  else if u.status = .indexing then
    { variant := .Indexing
      heading := none
      tooltip := none
      info := some (if hovered then "Click to pause" else u.desc)
      fill := some (fillPercentage u.progress)
      percentLabel := some (toString (mathTrunc (u.progress * 100)) ++ "%")
      dotClickMessages := []
      flexClickMessages := [.setPaused true] }
  else
    { variant := .Empty
      heading := none
      tooltip := none
      info := none
      fill := none
      percentLabel := none
      dotClickMessages := []
      flexClickMessages := [] }

/-- `setPaused((prev) => !prev)`: JavaScript negation of the current value,
where `undefined` is falsy, so an unset intent flips to `true`. -/
def togglePause (p : Option Bool) : Option Bool :=
  some (! p.getD false)

/-- Result of running the row-level `onClick` dispatcher: the messages it
posts directly, the pause intent after any `setPaused` state update, and
whether it opened the rebuild confirmation dialog. -/
structure ClickOutcome where
  messages : List HostMessage
  newPaused : Option Bool
  dialogOpened : Bool
  deriving DecidableEq, Repr

/-- The row-level `onClick` dispatcher (the `switch` on
`indexingState.status`): `failed` either opens the rebuild confirmation
dialog (when `shouldClearIndexes` is truthy and not in JetBrains) or posts
`forceReIndex` with no payload; `indexing`/`paused` toggles the pause intent
when `progress < 1 && progress >= 0` and otherwise posts `forceReIndex` with
no payload; every other status posts `forceReIndex` with no payload. -/
def rowClick (jetBrains : Bool) (u : IndexingProgressUpdate)
    (paused : Option Bool) : ClickOutcome :=
  match u.status with
  | .failed =>
    if u.shouldClearIndexes.getD false = true ∧ jetBrains = false then
      { messages := [], newPaused := paused, dialogOpened := true }
    else
      { messages := [.forceReIndex none], newPaused := paused, dialogOpened := false }
  | .indexing | .paused =>
    if u.progress < 1 ∧ 0 ≤ u.progress then
      { messages := [], newPaused := togglePause paused, dialogOpened := false }
    else
      { messages := [.forceReIndex none], newPaused := paused, dialogOpened := false }
  | _ =>
    { messages := [.forceReIndex none], newPaused := paused, dialogOpened := false }

/-- Title of the rebuild confirmation dialog. -/
def rebuildDialogTitle : String := "Rebuild codebase index"

/-- Confirm-button label of the rebuild confirmation dialog. -/
def rebuildDialogConfirmText : String := "Rebuild"

/-- Body text of the rebuild confirmation dialog. -/
def rebuildDialogText : String :=
  "Your index appears corrupted. We recommend clearing and rebuilding it, which may take time for large codebases.\n\nFor a faster rebuild without clearing data, press \x27Shift + Command + P\x27 to open the Command Palette, and type out \x27Continue: Force Codebase Re-Indexing\x27"

/-- Host messages posted by the dialog's `onConfirm` callback (the analytics
capture call is not a host message and is out of scope). -/
def confirmRebuildMessages : List HostMessage :=
  [.forceReIndex (some true)]

/-- Host messages posted when the dialog is dismissed: the dialog has no
dismissal callback, so dismissal posts nothing. -/
def dismissRebuildMessages : List HostMessage := []

/-- Body of the `useEffect` with dependency `[paused]` (the pause-intent
reconciler): returns without posting when `paused` is `undefined`, otherwise
posts `index/setPaused` with the current boolean. -/
def pausedEffectMessages : Option Bool → List HostMessage
  | none => []
  | some b => [.setPaused b]

/-- React re-runs an effect with dependency `[paused]` only when the value
changed between renders (compared to the previous render's value). -/
def effectOnChange (oldP newP : Option Bool) : List HostMessage :=
  if newP = oldP then [] else pausedEffectMessages newP

/-- All `ideMessenger.post` messages produced by one physical user click on
the rendered indicator, in posting order: the React synthetic event bubbles
from the innermost handler outward (none of the handlers stops propagation),
so the `StatusDot` handler (when the click lands on the dot) fires first,
then the branch's `FlexDiv` handler, then the outer `div`'s `onClick`
dispatcher; a pause-intent change then fires the reconciler effect after the
re-render. Returns the messages and the pause intent after the click. -/
def fullClick (jetBrains : Bool) (u : IndexingProgressUpdate)
    (paused : Option Bool) (hovered clickOnDot : Bool)
    (embeddingsProvider : String) : List HostMessage × Option Bool :=
  let d := display u paused hovered embeddingsProvider jetBrains
  let inner : List HostMessage :=
    (if clickOnDot then d.dotClickMessages else []) ++ d.flexClickMessages
  let outer := rowClick jetBrains u paused
  (inner ++ outer.messages ++ effectOnChange paused outer.newPaused,
   outer.newPaused)

/-- Initial value of the `paused` state: `useState<boolean | undefined>(undefined)`. -/
def initialPaused : Option Bool := none

/-- Initial value of the render-body local `let initialized = false`. -/
def initializedInit : Bool := false

/-- Body of the `useEffect` with empty dependency array: posts
`index/indexingProgressBarInitialized` unless the local flag is already set,
and sets the flag. -/
def initEffectBody (initialized : Bool) : List HostMessage × Bool :=
  if initialized = true then ([], initialized)
  else ([.indexingProgressBarInitialized], true)

/-- Messages posted by the mount-effect machinery at render number `k` of a
single mount: an effect with empty dependency array runs only after the first
render (`k = 0`), never on re-renders. -/
def renderInitMessages : ℕ → List HostMessage
  | 0 => (initEffectBody initializedInit).1
  | _ + 1 => []

/-- Messages posted when the component mounts: both effects run after the
first render, in declaration order — the empty-deps initialization effect,
then the pause reconciler effect with the initial (`undefined`) intent. -/
def mountMessages : List HostMessage :=
  (initEffectBody initializedInit).1 ++ pausedEffectMessages initialPaused

/-- Messages posted when a new `ProgressUpdate` prop arrives and the
component re-renders: the incoming update does not modify `paused` (only the
click handlers call `setPaused`), so the reconciler effect sees an unchanged
dependency. -/
def hostUpdateMessages (paused : Option Bool) : List HostMessage :=
  effectOnChange paused paused

/-- Messages posted over a sequence of host progress updates received after
mount, with no user interaction: each update re-renders with `paused`
unchanged. -/
def runUpdates (paused : Option Bool) :
    List IndexingProgressUpdate → List HostMessage
  | [] => []
  | _ :: us => hostUpdateMessages paused ++ runUpdates paused us

/-- C1: Terminal-status precedence — for every update, pause intent, hover
flag, and environment, a terminal status (`done`, `failed`, `disabled`)
selects the display branch determined by that status, in the literal
first-match order of the render chain, and the display is never `Paused`
even when the pause intent is `true`. -/
theorem terminal_status_precedence (u : IndexingProgressUpdate)
    (paused : Option Bool) (hovered : Bool) (embeddingsProvider : String)
    (jetBrains : Bool)
    (hterm : u.status = .done ∨ u.status = .failed ∨ u.status = .disabled) :
    (u.status = .done →
      (display u paused hovered embeddingsProvider jetBrains).variant = .Done) ∧
    (u.status = .failed →
      (display u paused hovered embeddingsProvider jetBrains).variant = .Failed) ∧
    (u.status = .disabled →
      (display u paused hovered embeddingsProvider jetBrains).variant = .Disabled) ∧
    (display u paused hovered embeddingsProvider jetBrains).variant ≠ .Paused := by
  rcases hterm with h | h | h <;> simp [display, h]

/-- Witness for C1: with a pending pause intent of `true` and status `done`,
the display is `Done`, not `Paused`. -/
theorem terminal_status_precedence_witness :
    (display ⟨.done, 1/2, "", none⟩ (some true) false "" false).variant = .Done ∧
    (display ⟨.done, 1/2, "", none⟩ (some true) false "" false).variant ≠ .Paused := by
  have h := terminal_status_precedence ⟨.done, 1/2, "", none⟩ (some true) false "" false
    (Or.inl rfl)
  exact ⟨h.1 rfl, h.2.2.2⟩

/-- C2: Row-level click dispatch for active statuses — with status
`indexing` or `paused`, a row click with `0 ≤ progress < 1` toggles the pause
intent (negating it, with an unset intent flipping to `true`) and posts
nothing; with `progress ≥ 1` or `progress < 0` it posts `forceReIndex` with
no payload and leaves the pause intent unchanged. -/
theorem row_click_active_dispatch (jetBrains : Bool)
    (u : IndexingProgressUpdate) (paused : Option Bool)
    (hs : u.status = .indexing ∨ u.status = .paused) :
    (0 ≤ u.progress ∧ u.progress < 1 →
      rowClick jetBrains u paused =
        { messages := [], newPaused := some (! paused.getD false),
          dialogOpened := false } ∧
      (paused = none → (rowClick jetBrains u paused).newPaused = some true)) ∧
    (1 ≤ u.progress ∨ u.progress < 0 →
      rowClick jetBrains u paused =
        { messages := [.forceReIndex none], newPaused := paused,
          dialogOpened := false }) := by
  obtain ⟨st, pr, ds, sc⟩ := u
  simp only at hs
  constructor
  · rintro ⟨h0, h1⟩
    rcases hs with h | h <;> subst h <;>
      refine ⟨by simp [rowClick, togglePause, if_pos (And.intro h1 h0)], ?_⟩ <;>
      · rintro rfl
        simp [rowClick, togglePause, if_pos (And.intro h1 h0)]
  · intro hout
    have hneg : ¬(pr < 1 ∧ 0 ≤ pr) := by
      rintro ⟨hl, hg⟩
      rcases hout with h | h
      · exact absurd h (not_le.mpr hl)
      · exact absurd hg (not_le.mpr h)
    rcases hs with h | h <;> subst h <;> simp [rowClick, if_neg hneg]

/-- Witness for C2: at status `indexing`, a click with `progress = 1/2` and
unset intent toggles the intent to `true` with no message, and a click with
`progress = 3/2` posts `forceReIndex` with no payload leaving the intent
unchanged. -/
theorem row_click_active_dispatch_witness :
    rowClick false ⟨.indexing, 1/2, "", none⟩ none =
      { messages := [], newPaused := some true, dialogOpened := false } ∧
    rowClick false ⟨.indexing, 3/2, "x", none⟩ (some false) =
      { messages := [.forceReIndex none], newPaused := some false,
        dialogOpened := false } := by
  constructor
  · exact (((row_click_active_dispatch false ⟨.indexing, 1/2, "", none⟩ none
      (Or.inl rfl)).1 (by norm_num)).1)
  · exact ((row_click_active_dispatch false ⟨.indexing, 3/2, "x", none⟩
      (some false) (Or.inl rfl)).2 (Or.inl (by norm_num)))

/-- C3: Failed-state confirmation detour — clicking while status is `failed`
opens the rebuild confirmation dialog and posts nothing when
`shouldClearIndexes` is truthy and the environment is not JetBrains;
otherwise it immediately posts `forceReIndex` with no payload and opens no
dialog; the dialog's confirm callback posts `forceReIndex` with
`shouldClearIndexes: true`, and dismissal posts nothing. -/
theorem failed_click_confirmation (jetBrains : Bool)
    (u : IndexingProgressUpdate) (paused : Option Bool)
    (hs : u.status = .failed) :
    (u.shouldClearIndexes.getD false = true ∧ jetBrains = false →
      rowClick jetBrains u paused =
        { messages := [], newPaused := paused, dialogOpened := true }) ∧
    (u.shouldClearIndexes.getD false = false ∨ jetBrains = true →
      rowClick jetBrains u paused =
        { messages := [.forceReIndex none], newPaused := paused,
          dialogOpened := false }) ∧
    confirmRebuildMessages = [.forceReIndex (some true)] ∧
    dismissRebuildMessages = [] := by
  obtain ⟨st, pr, ds, sc⟩ := u
  simp only at hs
  subst hs
  refine ⟨?_, ?_, rfl, rfl⟩
  · intro h
    simp [rowClick, if_pos h]
  · intro h
    have hneg : ¬(sc.getD false = true ∧ jetBrains = false) := by
      rcases h with h | h
      · rintro ⟨h1, _⟩
        rw [h] at h1
        exact absurd h1 (by decide)
      · rintro ⟨_, h2⟩
        rw [h] at h2
        exact absurd h2 (by decide)
    simp [rowClick, if_neg hneg]

/-- Witness for C3: a corrupted-index failure outside JetBrains opens the
dialog with no message, and the same failure with `shouldClearIndexes`
absent posts `forceReIndex` with no payload. -/
theorem failed_click_confirmation_witness :
    rowClick false ⟨.failed, 0, "e", some true⟩ none =
      { messages := [], newPaused := none, dialogOpened := true } ∧
    rowClick false ⟨.failed, 0, "e", none⟩ none =
      { messages := [.forceReIndex none], newPaused := none,
        dialogOpened := false } := by
  constructor
  · exact (failed_click_confirmation false ⟨.failed, 0, "e", some true⟩ none
      rfl).1 ⟨rfl, rfl⟩
  · exact ((failed_click_confirmation false ⟨.failed, 0, "e", none⟩ none
      rfl).2.1 (Or.inl rfl))

/-- Helper: a click anywhere on the Indexing row (pause intent not `true`,
in-range progress) posts `setPaused true` from the row's inline handler and
again from the reconciler effect after the intent toggles to `true`. -/
theorem indexing_click_messages_aux (jetBrains : Bool) (pr : ℚ) (ds : String)
    (sc paused : Option Bool) (hovered clickOnDot : Bool) (e : String)
    (hp : paused ≠ some true) (h1 : pr < 1) (h0 : 0 ≤ pr) :
    (fullClick jetBrains ⟨.indexing, pr, ds, sc⟩ paused hovered clickOnDot
      e).1 = [.setPaused true, .setPaused true] := by
  have hgd : paused.getD false = false := by
    rcases paused with _ | b
    · rfl
    · cases b
      · rfl
      · exact absurd rfl hp
  have hne : some true ≠ paused := by
    intro h
    exact hp h.symm
  simp [fullClick, display, rowClick, togglePause, effectOnChange,
    pausedEffectMessages, hgd, hne, if_pos (And.intro h1 h0)]

/-- C4 counterexample: a single click on the Indexing row at `progress = 1/2`
with unset pause intent produces two `setPaused` messages — one posted
directly by the row's inline handler and one by the reconciler effect after
the intent toggles — so the number of `setPaused` messages is not one. -/
theorem single_setPaused_counterexample :
    (fullClick false ⟨.indexing, 1/2, "", none⟩ none false false "").1 =
      [.setPaused true, .setPaused true] ∧
    ¬ ((fullClick false ⟨.indexing, 1/2, "", none⟩ none false
        false "").1.countP isSetPaused = 1) := by
  have h := indexing_click_messages_aux false (1/2) "" none none false false
    "" (by decide) (by norm_num) (by norm_num)
  refine ⟨h, ?_⟩
  rw [h]
  decide

/-- C4 (amended): a single user click on the indicator while status is
`indexing` (Indexing display shown, pause intent not `true`) and
`progress = 1/2` causes exactly two `index/setPaused` messages, both with
payload `true`: the row's inline handler posts one directly and the pause
reconciler effect posts the other after the intent toggles to `true`. -/
theorem indexing_click_sends_two_setPaused (jetBrains : Bool)
    (u : IndexingProgressUpdate) (paused : Option Bool) (hovered : Bool)
    (embeddingsProvider : String)
    (hs : u.status = .indexing) (hp : paused ≠ some true)
    (hprog : u.progress = 1/2) :
    (fullClick jetBrains u paused hovered false embeddingsProvider).1 =
      [.setPaused true, .setPaused true] := by
  obtain ⟨st, pr, ds, sc⟩ := u
  simp only at hs hprog
  subst hs
  exact indexing_click_messages_aux jetBrains pr ds sc paused hovered false
    embeddingsProvider hp (by rw [hprog]; norm_num) (by rw [hprog]; norm_num)

/-- Witness for C4 (amended): with intent `false`, hover on, and a nonempty
description, the click emits exactly the two `setPaused true` messages. -/
theorem indexing_click_sends_two_setPaused_witness :
    (fullClick false ⟨.indexing, 1/2, "d", none⟩ (some false) true false
      "p").1 = [.setPaused true, .setPaused true] :=
  indexing_click_sends_two_setPaused false ⟨.indexing, 1/2, "d", none⟩
    (some false) true "p" rfl (by decide) rfl

/-- C5: Paused-state resume shortcut — whenever the display is `Paused`
(status `paused`, or status `indexing` with pause intent `true`), the
dedicated `StatusDot` sub-element's click handler posts exactly
`index/setPaused` with payload `false` directly, independently of the pause
intent toggling done by the whole-row handler. -/
theorem paused_dot_resume (u : IndexingProgressUpdate) (paused : Option Bool)
    (hovered : Bool) (embeddingsProvider : String) (jetBrains : Bool)
    (hp : (display u paused hovered embeddingsProvider jetBrains).variant =
      .Paused) :
    (display u paused hovered embeddingsProvider jetBrains).dotClickMessages =
      [.setPaused false] := by
  obtain ⟨st, pr, ds, sc⟩ := u
  cases st <;> simp [display] at hp ⊢
  rcases paused with _ | b
  · simp at hp
  · cases b
    · simp at hp
    · simp

/-- Witness for C5: with host-reported status `paused`, the dot handler
posts `setPaused false`. -/
theorem paused_dot_resume_witness :
    (display ⟨.paused, 1/4, "", none⟩ none false "" false).dotClickMessages =
      [.setPaused false] :=
  paused_dot_resume ⟨.paused, 1/4, "", none⟩ none false "" false (by rfl)

/-- C6: Progress-bar fill clamp — the fill shown by the Indexing display
equals `min(100, max(0, progress*100))` for every progress value, and in
particular `-1/5 ↦ 0`, `7/5 ↦ 100`, `37/100 ↦ 37`; the fill always lies in
`[0, 100]`. -/
theorem fill_percentage_clamp (q : ℚ) :
    (display ⟨.indexing, q, "", none⟩ none false "" false).fill =
      some (min 100 (max 0 (q * 100))) ∧
    fillPercentage (-(1/5)) = 0 ∧
    fillPercentage (7/5) = 100 ∧
    fillPercentage (37/100) = 37 ∧
    0 ≤ fillPercentage q ∧ fillPercentage q ≤ 100 := by
  refine ⟨rfl, by norm_num [fillPercentage], by norm_num [fillPercentage],
    by norm_num [fillPercentage], le_min (by norm_num) (le_max_left 0 _),
    min_le_left _ _⟩

/-- C7: Truncated percent label — in the Indexing and Paused displays the
percent label is `Math.trunc(progress*100)` (truncation toward zero: floor
for nonnegative values, ceiling for negative ones), unclamped and unrounded:
`progress = 999/1000` labels `99%` while the clamped, untruncated fill is
`999/10`, and `progress = 7/5` labels `140%`. -/
theorem percent_label_truncation (q : ℚ) :
    (display ⟨.indexing, q, "", none⟩ none false "" false).percentLabel =
      some (toString (mathTrunc (q * 100)) ++ "%") ∧
    (display ⟨.paused, q, "", none⟩ none false "" false).heading =
      some ("Indexing paused (" ++ toString (mathTrunc (q * 100)) ++ "%)") ∧
    mathTrunc ((999/1000 : ℚ) * 100) = 99 ∧
    fillPercentage (999/1000) = 999/10 ∧
    mathTrunc ((7/5 : ℚ) * 100) = 140 ∧
    (0 ≤ q → mathTrunc q = ⌊q⌋) ∧
    (q < 0 → mathTrunc q = ⌈q⌉) := by
  refine ⟨rfl, rfl, ?_, ?_, ?_, ?_, ?_⟩
  · have h : ((999/1000 : ℚ) * 100) = 999/10 := by norm_num
    rw [mathTrunc, h]
    norm_num
  · norm_num [fillPercentage]
  · have h : ((7/5 : ℚ) * 100) = 140 := by norm_num
    rw [mathTrunc, h]
    norm_num
  · intro h
    rw [mathTrunc, if_neg (not_lt.mpr h)]
  · intro h
    rw [mathTrunc, if_pos h, Int.floor_neg, neg_neg]

/-- Witness for C7: at `progress = 999/1000` the Indexing percent label is
`99%`, and the truncation agrees with the floor on this nonnegative value. -/
theorem percent_label_truncation_witness :
    (display ⟨.indexing, 999/1000, "", none⟩ none false "" false).percentLabel =
      some "99%" ∧
    mathTrunc ((999/1000 : ℚ) * 100) = 99 ∧
    mathTrunc (999/1000 : ℚ) = ⌊(999/1000 : ℚ)⌋ := by
  have h := percent_label_truncation (999/1000)
  refine ⟨?_, h.2.2.1, h.2.2.2.2.2.1 (by norm_num)⟩
  rw [h.1, h.2.2.1]
  rfl

/-- C8: One-shot initialization notification — across the first render and
any number `n` of re-renders within one mount, exactly one
`index/indexingProgressBarInitialized` message is posted: the empty-deps
effect posts it after the first render and never runs again. -/
theorem init_message_once (n : ℕ) :
    (((List.range (n + 1)).map renderInitMessages).flatten).count
      HostMessage.indexingProgressBarInitialized = 1 := by
  induction n with
  | zero => rfl
  | succ n ih =>
    rw [List.range_succ]
    simpa [renderInitMessages] using ih

/-- C9 counterexample: two renders with identical `(update, pause intent,
hovered)` triples but different embeddings providers produce different
display outputs — in the Failed state the tooltip substitution depends on
the provider (and the JetBrains flag), so the display is not a function of
the triple alone. -/
theorem display_pure_triple_counterexample :
    display ⟨.failed, 0, "err", none⟩ none false transformersJsModel true ≠
      display ⟨.failed, 0, "err", none⟩ none false "openai" true := by
  intro h
  have ht := congrArg DisplayState.tooltip h
  simp [display, getIndexingErrMsg, transformersJsModel,
    jetBrainsUnsupportedMsg] at ht

/-- C9 (amended): the display output is a pure function of the update, the
pause intent, the hover flag, the embeddings provider, and the JetBrains
flag; the branch taken, headings, info text, fill, percent label, and click
handlers depend only on the `(update, pause intent, hovered)` triple — only
the Failed-state tooltip additionally depends on the provider and the
environment. -/
theorem display_pure_of_inputs (u : IndexingProgressUpdate)
    (paused : Option Bool) (hovered : Bool) (e1 e2 : String) (j1 j2 : Bool) :
    (display u paused hovered e1 j1).variant =
      (display u paused hovered e2 j2).variant ∧
    (display u paused hovered e1 j1).heading =
      (display u paused hovered e2 j2).heading ∧
    (display u paused hovered e1 j1).info =
      (display u paused hovered e2 j2).info ∧
    (display u paused hovered e1 j1).fill =
      (display u paused hovered e2 j2).fill ∧
    (display u paused hovered e1 j1).percentLabel =
      (display u paused hovered e2 j2).percentLabel ∧
    (display u paused hovered e1 j1).dotClickMessages =
      (display u paused hovered e2 j2).dotClickMessages ∧
    (display u paused hovered e1 j1).flexClickMessages =
      (display u paused hovered e2 j2).flexClickMessages ∧
    (u.status ≠ .failed →
      (display u paused hovered e1 j1).tooltip =
        (display u paused hovered e2 j2).tooltip) := by
  obtain ⟨st, pr, ds, sc⟩ := u
  rcases paused with _ | b
  · cases st <;> simp [display]
  · cases b <;> cases st <;> simp [display]

/-- Witness for C9 (amended): at status `indexing` the whole display,
tooltip included, is unchanged when provider and environment change. -/
theorem display_pure_of_inputs_witness :
    (display ⟨.indexing, 1/2, "d", none⟩ none true "a" false).variant =
      (display ⟨.indexing, 1/2, "d", none⟩ none true "b" true).variant ∧
    (display ⟨.indexing, 1/2, "d", none⟩ none true "a" false).tooltip =
      (display ⟨.indexing, 1/2, "d", none⟩ none true "b" true).tooltip := by
  have h := display_pure_of_inputs ⟨.indexing, 1/2, "d", none⟩ none true
    "a" "b" false true
  exact ⟨h.1, h.2.2.2.2.2.2.2 (by decide)⟩

/-- Helper: re-renders caused by incoming host updates post nothing, because
the pause intent is untouched and the reconciler effect only re-runs when
its dependency changed. -/
theorem runUpdates_no_messages (p : Option Bool)
    (us : List IndexingProgressUpdate) : runUpdates p us = [] := by
  induction us with
  | nil => rfl
  | cons u us ih => simp [runUpdates, hostUpdateMessages, effectOnChange, ih]

/-- C10: No `setPaused` while the intent is unset — mounting the component
and then receiving any sequence of host progress updates, with no user
interaction, never posts `index/setPaused`: the reconciler effect returns
without posting when the local `paused` value is `undefined`. -/
theorem no_setPaused_while_unset (us : List IndexingProgressUpdate)
    (b : Bool) :
    HostMessage.setPaused b ∉ mountMessages ++ runUpdates initialPaused us := by
  rw [runUpdates_no_messages]
  simp [mountMessages, initEffectBody, initializedInit, pausedEffectMessages,
    initialPaused]
